import Mathlib

/-!
Shallow embedding of `src/frontend/src/App.tsx` (pagination-synchronized
remote data-table state machine): component state, the page-fetch effect,
the paginator-change handler, the bulk "select first N" handler, the
selection-change reconciliation, and the selected-rows computation passed
to the table widget.  Network responses are passed in explicitly as
`Except` values (the `catch` branch of the TypeScript `try`/`catch` is the
`.error` case); state updates become pure functions on the state record.
-/

namespace App

/-- The `Artwork` record shape fetched from the remote source
(`interface Artwork` in App.tsx).  Optional fields are `Option`. -/
structure Artwork where
  id : Int
  title : String
  place_of_origin : Option String
  artist_display : String
  inscriptions : Option String
  date_start : Int
  date_end : Int
deriving DecidableEq, Repr

/-- The lazy table state held in the `lazyState` useState hook
(PrimeReact `DataTableStateEvent`): offset of first visible row, rows per
page, zero-based page index, plus the sort fields the component
initializes but never reads back (`filters`/`multiSortMeta` are omitted:
they are set once and never read nor written again). -/
structure DataTableStateEvent where
  first : Nat
  rows : Nat
  page : Nat
  sortField : String
  sortOrder : Option Int
deriving DecidableEq, Repr

/-- The event emitted by the PrimeReact `Paginator` collaborator
(`PaginatorPageChangeEvent`): fields read by `onPaginatorChange`. -/
structure PaginatorPageChangeEvent where
  first : Nat
  rows : Nat
  page : Nat
deriving DecidableEq, Repr

/-- The component state: one field per `useState` hook of `App`. -/
structure AppState where
  loading : Bool
  artworks : List Artwork
  totalRecords : Nat
  selection : Finset Int
  isPanelOpen : Bool
  numToSelect : String
  lazyState : DataTableStateEvent
deriving DecidableEq

/-- Initial component state, from the `useState` initializers. -/
def initialState : AppState :=
  { loading := false
    artworks := []
    totalRecords := 0
    selection := ∅
    isPanelOpen := false
    numToSelect := ""
    lazyState :=
      { first := 0, rows := 10, page := 0, sortField := "", sortOrder := none } }

/-- Modelled from JavaScript semantics: `parseInt(s, 10)`.  Skips leading
whitespace, consumes an optional sign, then the longest prefix of decimal
digits; yields `none` (JS `NaN`) when that prefix is empty, otherwise the
signed integer value.  Trailing characters are ignored. -/
def parseInt (s : String) : Option Int :=
  let cs := s.data.dropWhile (fun c => c = ' ' ∨ c = '\t' ∨ c = '\n' ∨ c = '\r')
  let signAndRest : Int × List Char :=
    match cs with
    | '-' :: r => (-1, r)
    | '+' :: r => (1, r)
    | r => (1, r)
  let ds := signAndRest.2.takeWhile Char.isDigit
  if ds.isEmpty then none
  else some (signAndRest.1 * (ds.foldl (fun n c => 10 * n + (c.toNat - 48)) 0 : Nat))

/-- The 1-based page sent to the API: `lazyState.page ? lazyState.page + 1 : 1`
(a zero page index is falsy in JS, so page 0 sends 1). -/
def apiPage (page : Nat) : Nat := if page ≠ 0 then page + 1 else 1

/-- Field projection requested by the page fetch. -/
def pageFields : String :=
  "id,title,place_of_origin,artist_display,inscriptions,date_start,date_end"

/-- The URL built by `fetchArtworks` for the current lazy state. -/
def pageFetchUrl (ls : DataTableStateEvent) : String :=
  "https://api.artic.edu/api/v1/artworks?page=" ++ toString (apiPage ls.page) ++
    "&limit=" ++ toString ls.rows ++ "&fields=" ++ pageFields ++ "&sort[id]=asc"

/-- The URL built by `handleSelectTopN` for a validated count. -/
def bulkFetchUrl (count : Int) : String :=
  "https://api.artic.edu/api/v1/artworks?page=1&limit=" ++ toString count ++
    "&fields=id&sort[id]=asc"

/-- The `pagination` object of a well-formed page-fetch response body. -/
structure Pagination where
  total : Nat
deriving DecidableEq, Repr

/-- Decoded JSON body of a page fetch.  A well-formed response carries both
`data` and `pagination`; `pagination` is `Option` because `fetch` does not
reject on HTTP error statuses and `response.ok` is never checked, so a
valid-JSON error envelope without a `pagination` object can reach this
code.  Bodies whose `data` is not an array are outside the model. -/
structure FetchResult where
  data : List Artwork
  pagination : Option Pagination
deriving DecidableEq, Repr

/-- Outcome of one page-fetch cycle: the resulting component state and the
single request URL that was issued. -/
structure FetchRun where
  state : AppState
  url : String
deriving DecidableEq

/-- The `fetchArtworks` effect body, as a function of the network outcome
`resp`.  The `.error` case is `fetch` or `response.json()` rejecting: the
`catch` branch only logs and the `finally` clears the loading flag.  In the
`.ok` case the code runs `setArtworks(result.data)` BEFORE reading
`result.pagination.total`; when the body has no `pagination` object that
property access throws, so `artworks` has already been replaced while
`totalRecords` keeps its prior value — the update is not atomic. -/
def fetchArtworks (st : AppState) (resp : Except String FetchResult) : FetchRun :=
  let url := pageFetchUrl st.lazyState
  match resp with
  | .ok result =>
      match result.pagination with
      | some pg =>
          { state := { st with
              artworks := result.data
              totalRecords := pg.total
              loading := false }
            url := url }
      | none =>
          { state := { st with
              artworks := result.data
              loading := false }
            url := url }
  | .error _ =>
      { state := { st with loading := false }, url := url }

/-- The `onPaginatorChange` handler: copies `first`, `rows`, `page` from the
paginator event into the lazy state, keeping the other fields. -/
def onPaginatorChange (st : AppState) (event : PaginatorPageChangeEvent) : AppState :=
  { st with lazyState := { st.lazyState with
      first := event.first
      rows := event.rows
      page := event.page } }

/-- Decoded body of the bulk-identifier fetch; `data` is `Option` because
the code guards `if (result.data)` before using it. -/
structure BulkResponse where
  data : Option (List Artwork)
deriving DecidableEq, Repr

/-- Outcome of one bulk-select submission: resulting state, the list of
request URLs issued (empty when validation rejects the input), and whether
a user-facing alert was shown. -/
structure BulkRun where
  state : AppState
  requests : List String
  alerted : Bool
deriving DecidableEq

/-- The JS `new Set([...prevSelection, ...idsToSelect])` union, built by
inserting the fetched ids into the previous ledger. -/
def bulkAdd (prev : Finset Int) (ids : List Int) : Finset Int :=
  ids.foldl (fun s i => insert i s) prev

/-- The `handleSelectTopN` handler as a function of the network outcome
`resp` (consulted only when validation passes).  Invalid input
(`isNaN(count) || count <= 0`) alerts and returns early, before any state
update or request.  Otherwise one request is issued; on success the ids in
`result.data` (when present) are unioned into the ledger, on failure an
alert is shown, and the `finally` block clears the loading flag, clears the
input, and closes the panel in every case. -/
def handleSelectTopN (st : AppState) (resp : Except String BulkResponse) : BulkRun :=
  match parseInt st.numToSelect with
  | none =>
      { state := st, requests := [], alerted := true }
  | some count =>
      if count ≤ 0 then
        { state := st, requests := [], alerted := true }
      else
        let url := bulkFetchUrl count
        match resp with
        | .ok result =>
            let st1 :=
              match result.data with
              | some arts =>
                  { st with selection := bulkAdd st.selection (arts.map Artwork.id) }
              | none => st
            { state := { st1 with
                loading := false
                numToSelect := ""
                isPanelOpen := false }
              requests := [url]
              alerted := false }
        | .error _ =>
            { state := { st with
                loading := false
                numToSelect := ""
                isPanelOpen := false }
              requests := [url]
              alerted := true }

/-- The `onSelectionChange` handler: the table reports the complete new
selection for the visible page; every id on the current page that is not
in the new selection is deleted from the ledger, then every newly reported
id is added. -/
def onSelectionChange (st : AppState) (newSelection : List Artwork) : AppState :=
  let currentPageIds : Finset Int := (st.artworks.map Artwork.id).toFinset
  let newSelectionIds : Finset Int := (newSelection.map Artwork.id).toFinset
  { st with selection :=
      (st.selection \ (currentPageIds \ newSelectionIds)) ∪ newSelectionIds }

/-- The rows handed to the table as its `selection` prop:
`artworks.filter(art => selection.has(art.id))`. -/
def selectedRows (st : AppState) : List Artwork :=
  st.artworks.filter (fun art => decide (art.id ∈ st.selection))

end App

namespace App

/-- Helper: `bulkAdd` computes the set union of the previous ledger with the
fetched ids. -/
theorem bulkAdd_eq_union (prev : Finset Int) (ids : List Int) :
    bulkAdd prev ids = prev ∪ ids.toFinset := by
  induction ids generalizing prev with
  | nil => simp [bulkAdd]
  | cons i is ih =>
      simp only [bulkAdd, List.foldl_cons] at *
      rw [ih (insert i prev)]
      ext x
      simp only [Finset.mem_union, Finset.mem_insert, List.mem_toFinset, List.mem_cons]
      tauto

/-- C1: reconciliation on a selection-change event that reports the complete
new selection for the visible page removes exactly the displayed ids absent
from the new selection, adds every newly reported id, and leaves every id
not on the displayed page untouched. -/
theorem onSelectionChange_reconciles (st : AppState) (newSelection : List Artwork)
    (hpage : ∀ a ∈ newSelection, a.id ∈ st.artworks.map Artwork.id) :
    (∀ i ∈ st.artworks.map Artwork.id, i ∉ newSelection.map Artwork.id →
        i ∉ (onSelectionChange st newSelection).selection) ∧
    (∀ i ∈ newSelection.map Artwork.id,
        i ∈ (onSelectionChange st newSelection).selection) ∧
    (∀ i : Int, i ∉ st.artworks.map Artwork.id →
        (i ∈ (onSelectionChange st newSelection).selection ↔ i ∈ st.selection)) := by
  refine ⟨?_, ?_, ?_⟩ <;> intro i
  · intro hi hni
    simp only [onSelectionChange, Finset.mem_union, Finset.mem_sdiff,
      List.mem_toFinset]
    push_neg
    exact ⟨fun _ => ⟨hi, hni⟩, hni⟩
  · intro hi
    simp only [onSelectionChange, Finset.mem_union, List.mem_toFinset]
    exact Or.inr hi
  · intro hni
    have hpage2 : i ∈ newSelection.map Artwork.id → i ∈ st.artworks.map Artwork.id := by
      intro hmem
      rcases List.mem_map.mp hmem with ⟨a, ha, rfl⟩
      exact hpage a ha
    simp only [onSelectionChange, Finset.mem_union, Finset.mem_sdiff, List.mem_toFinset]
    constructor
    · rintro (⟨hS, _⟩ | hnew)
      · exact hS
      · exact absurd (hpage2 hnew) hni
    · intro hS
      exact Or.inl ⟨hS, fun h => hni h.1⟩

/-- Witness for C1: page is ids 1 and 2, ledger is 1, 2 and off-page 99; the
event reports only id 2 selected.  Then 1 is removed, 2 stays, 99 is
untouched. -/
theorem onSelectionChange_reconciles_witness :
    ((1:Int) ∉ (onSelectionChange
        { initialState with
            artworks := [⟨1, "", none, "", none, 0, 0⟩, ⟨2, "", none, "", none, 0, 0⟩]
            selection := {1, 2, 99} }
        [⟨2, "", none, "", none, 0, 0⟩]).selection) ∧
    ((2:Int) ∈ (onSelectionChange
        { initialState with
            artworks := [⟨1, "", none, "", none, 0, 0⟩, ⟨2, "", none, "", none, 0, 0⟩]
            selection := {1, 2, 99} }
        [⟨2, "", none, "", none, 0, 0⟩]).selection) ∧
    ((99:Int) ∈ (onSelectionChange
        { initialState with
            artworks := [⟨1, "", none, "", none, 0, 0⟩, ⟨2, "", none, "", none, 0, 0⟩]
            selection := {1, 2, 99} }
        [⟨2, "", none, "", none, 0, 0⟩]).selection ↔
      (99:Int) ∈ ({1, 2, 99} : Finset Int)) := by
  have h := onSelectionChange_reconciles
    { initialState with
        artworks := [⟨1, "", none, "", none, 0, 0⟩, ⟨2, "", none, "", none, 0, 0⟩]
        selection := {1, 2, 99} }
    [⟨2, "", none, "", none, 0, 0⟩] (by decide)
  exact ⟨h.1 1 (by decide) (by decide), h.2.1 2 (by decide), h.2.2 99 (by decide)⟩

/-- C2: the bulk-add operation produces the set union of the previous ledger
with the fetched ids, so every previously selected id remains in the
ledger even when it is not among the requested top-N ids. -/
theorem bulkAdd_never_removes (prev : Finset Int) (ids : List Int) :
    bulkAdd prev ids = prev ∪ ids.toFinset ∧ ∀ i ∈ prev, i ∈ bulkAdd prev ids := by
  have h := bulkAdd_eq_union prev ids
  exact ⟨h, fun i hi => h ▸ Finset.mem_union_left _ hi⟩

/-- Witness for C2: id 7 is in the ledger but not among the fetched top-3
ids, and survives the bulk add. -/
theorem bulkAdd_never_removes_witness :
    bulkAdd {7} [1, 2, 3] = ({7} : Finset Int) ∪ ([1, 2, 3] : List Int).toFinset ∧
    (7:Int) ∈ bulkAdd {7} [1, 2, 3] :=
  ⟨(bulkAdd_never_removes {7} [1, 2, 3]).1,
    (bulkAdd_never_removes {7} [1, 2, 3]).2 7 (by decide)⟩

/-- C3: evaluation of the page-fetch path at the failing input.  A cycle
whose body is valid JSON carrying `data` but no `pagination` object (an
HTTP error envelope; `response.ok` is never checked) ends in the catch
branch, yet replaces the displayed page while the total record count keeps
its prior value 37 — a partial update, contradicting the stale-but-valid
policy the claim states.  Transport and JSON-parse rejections do leave both
unchanged, as the last two conjuncts show. -/
theorem fetchArtworks_partial_update_on_missing_pagination :
    (fetchArtworks { initialState with totalRecords := 37 }
        (.ok ⟨[⟨1, "", none, "", none, 0, 0⟩], none⟩)).state.artworks =
      [⟨1, "", none, "", none, 0, 0⟩] ∧
    (fetchArtworks { initialState with totalRecords := 37 }
        (.ok ⟨[⟨1, "", none, "", none, 0, 0⟩], none⟩)).state.totalRecords = 37 ∧
    (fetchArtworks { initialState with totalRecords := 37 }
        (.ok ⟨[⟨1, "", none, "", none, 0, 0⟩], none⟩)).state.loading = false ∧
    (fetchArtworks { initialState with totalRecords := 37 }
        (.error "network")).state.artworks = ([] : List Artwork) ∧
    (fetchArtworks { initialState with totalRecords := 37 }
        (.error "network")).state.totalRecords = 37 :=
  ⟨rfl, rfl, rfl, rfl, rfl⟩

/-- C4: a bulk-select submission whose input is non-numeric or parses to a
value at most zero issues no request, leaves the whole component state
unchanged (ledger kept, input retained, panel still open), and only shows
an alert. -/
theorem handleSelectTopN_invalid_noop (st : AppState) (resp : Except String BulkResponse)
    (h : parseInt st.numToSelect = none ∨
      ∃ c, parseInt st.numToSelect = some c ∧ c ≤ 0) :
    (handleSelectTopN st resp).requests = [] ∧
    (handleSelectTopN st resp).state = st ∧
    (handleSelectTopN st resp).alerted = true := by
  rcases h with h | ⟨c, hc, hle⟩
  · simp [handleSelectTopN, h]
  · simp [handleSelectTopN, hc, hle]

/-- Witness for C4: the three documented inputs "0", "-5" and "abc" each
issue zero requests and leave the state unchanged. -/
theorem handleSelectTopN_invalid_noop_witness :
    ((handleSelectTopN { initialState with numToSelect := "0", isPanelOpen := true }
        (.error "e")).requests = [] ∧
      (handleSelectTopN { initialState with numToSelect := "0", isPanelOpen := true }
        (.error "e")).state =
        { initialState with numToSelect := "0", isPanelOpen := true }) ∧
    ((handleSelectTopN { initialState with numToSelect := "-5", isPanelOpen := true }
        (.error "e")).requests = [] ∧
      (handleSelectTopN { initialState with numToSelect := "-5", isPanelOpen := true }
        (.error "e")).state =
        { initialState with numToSelect := "-5", isPanelOpen := true }) ∧
    ((handleSelectTopN { initialState with numToSelect := "abc", isPanelOpen := true }
        (.error "e")).requests = [] ∧
      (handleSelectTopN { initialState with numToSelect := "abc", isPanelOpen := true }
        (.error "e")).state =
        { initialState with numToSelect := "abc", isPanelOpen := true }) := by
  have h0 := handleSelectTopN_invalid_noop
    { initialState with numToSelect := "0", isPanelOpen := true } (.error "e")
    (Or.inr ⟨0, by decide, by decide⟩)
  have h5 := handleSelectTopN_invalid_noop
    { initialState with numToSelect := "-5", isPanelOpen := true } (.error "e")
    (Or.inr ⟨-5, by decide, by decide⟩)
  have ha := handleSelectTopN_invalid_noop
    { initialState with numToSelect := "abc", isPanelOpen := true } (.error "e")
    (Or.inl (by decide))
  exact ⟨⟨h0.1, h0.2.1⟩, ⟨h5.1, h5.2.1⟩, ⟨ha.1, ha.2.1⟩⟩

/-- C5: the page number sent to the remote endpoint is pageIndex + 1 when
pageIndex is nonzero (truthy) and 1 otherwise; page 0 sends 1, never 0. -/
theorem apiPage_one_based :
    (∀ p : Nat, p ≠ 0 → apiPage p = p + 1) ∧ apiPage 0 = 1 ∧ apiPage 0 ≠ 0 :=
  ⟨fun p hp => by simp [apiPage, hp], by decide, by decide⟩

/-- Witness for C5: a nonzero page index 3 is sent as page 4. -/
theorem apiPage_one_based_witness : apiPage 3 = 4 ∧ apiPage 0 = 1 :=
  ⟨apiPage_one_based.1 3 (by decide), apiPage_one_based.2.1⟩

/-- C6: the rows passed to the table as currently selected are exactly the
displayed records whose id is in the ledger (the intersection of the ledger
with the displayed page); a record whose id is not in the ledger is never
marked selected. -/
theorem selectedRows_inter (st : AppState) (a : Artwork) :
    a ∈ selectedRows st ↔ a ∈ st.artworks ∧ a.id ∈ st.selection := by
  simp [selectedRows, List.mem_filter]

/-- C7: a bulk-select submission with valid input clears the loading flag,
clears the numeric input and closes the panel whether the identifier fetch
succeeds or fails; on failure it additionally alerts and leaves the ledger
unchanged. -/
theorem handleSelectTopN_resets_panel (st : AppState) (c : Int)
    (hc : parseInt st.numToSelect = some c) (hpos : 0 < c)
    (resp : Except String BulkResponse) :
    (handleSelectTopN st resp).state.loading = false ∧
    (handleSelectTopN st resp).state.numToSelect = "" ∧
    (handleSelectTopN st resp).state.isPanelOpen = false ∧
    (∀ e, resp = .error e →
      (handleSelectTopN st resp).alerted = true ∧
      (handleSelectTopN st resp).state.selection = st.selection) := by
  have hle : ¬ c ≤ 0 := not_le.mpr hpos
  cases resp with
  | ok r => rcases hr : r.data with _ | arts <;> simp [handleSelectTopN, hc, hle, hr]
  | error e => simp [handleSelectTopN, hc, hle]

/-- Witness for C7: submitting "15" while the fetch fails still closes the
panel, clears the input and the loading flag, alerts, and keeps the
ledger. -/
theorem handleSelectTopN_resets_panel_witness :
    (handleSelectTopN { initialState with numToSelect := "15", isPanelOpen := true }
        (.error "network")).state.isPanelOpen = false ∧
    (handleSelectTopN { initialState with numToSelect := "15", isPanelOpen := true }
        (.error "network")).state.numToSelect = "" ∧
    (handleSelectTopN { initialState with numToSelect := "15", isPanelOpen := true }
        (.error "network")).state.loading = false ∧
    (handleSelectTopN { initialState with numToSelect := "15", isPanelOpen := true }
        (.error "network")).alerted = true ∧
    (handleSelectTopN { initialState with numToSelect := "15", isPanelOpen := true }
        (.error "network")).state.selection =
      ({ initialState with numToSelect := "15", isPanelOpen := true } : AppState).selection := by
  have h := handleSelectTopN_resets_panel
    { initialState with numToSelect := "15", isPanelOpen := true } 15
    (by decide) (by decide) (.error "network")
  exact ⟨h.2.2.1, h.2.1, h.1, (h.2.2.2 "network" rfl).1, (h.2.2.2 "network" rfl).2⟩

/-- Helper for C8: the pagination invariant is preserved by folding any list
of paginator events that each satisfy it. -/
theorem foldl_onPaginatorChange_invariant (events : List PaginatorPageChangeEvent) :
    ∀ st : AppState, st.lazyState.page * st.lazyState.rows = st.lazyState.first →
      (∀ e ∈ events, e.page * e.rows = e.first) →
      (events.foldl onPaginatorChange st).lazyState.page *
          (events.foldl onPaginatorChange st).lazyState.rows =
        (events.foldl onPaginatorChange st).lazyState.first := by
  induction events with
  | nil => intro st h _; simpa using h
  | cons e es ih =>
      intro st _ hall
      simp only [List.foldl_cons]
      exact ih (onPaginatorChange st e)
        (by simpa [onPaginatorChange] using hall e (by simp))
        (fun e2 he2 => hall e2 (List.mem_cons_of_mem _ he2))

/-- C8: starting from the initial Page State (first 0, rows 10, page 0),
after each event of a sequence of paginator page-change events settles, the
invariant pageIndex * pageSize = firstIndex holds (each event carries the
pagination control's guarantee page * rows = first). -/
theorem pageState_invariant (events : List PaginatorPageChangeEvent)
    (hall : ∀ e ∈ events, e.page * e.rows = e.first) (n : Nat) :
    ((events.take n).foldl onPaginatorChange initialState).lazyState.page *
        ((events.take n).foldl onPaginatorChange initialState).lazyState.rows =
      ((events.take n).foldl onPaginatorChange initialState).lazyState.first :=
  foldl_onPaginatorChange_invariant (events.take n) initialState
    (by simp [initialState])
    (fun e he => hall e (List.take_subset n events he))

/-- Witness for C8: after navigating to page 2 of size 10 and then back to
page 0 of size 20, the invariant holds at every step. -/
theorem pageState_invariant_witness :
    ((([⟨20, 10, 2⟩, ⟨0, 20, 0⟩] : List PaginatorPageChangeEvent).take 1).foldl
          onPaginatorChange initialState).lazyState.page *
        ((([⟨20, 10, 2⟩, ⟨0, 20, 0⟩] : List PaginatorPageChangeEvent).take 1).foldl
          onPaginatorChange initialState).lazyState.rows =
      ((([⟨20, 10, 2⟩, ⟨0, 20, 0⟩] : List PaginatorPageChangeEvent).take 1).foldl
          onPaginatorChange initialState).lazyState.first :=
  pageState_invariant [⟨20, 10, 2⟩, ⟨0, 20, 0⟩] (by decide) 1

/-- C9: the page-fetch path never writes the Selection Ledger (successful or
failed), and the bulk-fetch path only ever adds ids to the ledger, never
removing any. -/
theorem disjoint_write_paths (st : AppState) (respPage : Except String FetchResult)
    (respBulk : Except String BulkResponse) :
    (fetchArtworks st respPage).state.selection = st.selection ∧
    st.selection ⊆ (handleSelectTopN st respBulk).state.selection := by
  constructor
  · rcases respPage with e | r
    · rfl
    · rcases r with ⟨d, p⟩
      cases p <;> rfl
  · rcases hp : parseInt st.numToSelect with _ | c
    · simp [handleSelectTopN, hp]
    · by_cases hle : c ≤ 0
      · simp [handleSelectTopN, hp, hle]
      · cases respBulk with
        | ok r =>
            rcases hr : r.data with _ | arts <;>
              simp [handleSelectTopN, hp, hle, hr, bulkAdd_eq_union]
        | error e => simp [handleSelectTopN, hp, hle]

/-- Witness for C9: with id 42 selected, a failed page fetch keeps the
ledger and a successful bulk fetch of ids 1 and 2 keeps 42 selected. -/
theorem disjoint_write_paths_witness :
    (fetchArtworks { initialState with selection := {42}, numToSelect := "2" }
        (.error "network")).state.selection = ({42} : Finset Int) ∧
    ({42} : Finset Int) ⊆
      (handleSelectTopN { initialState with selection := {42}, numToSelect := "2" }
        (.ok ⟨some [⟨1, "", none, "", none, 0, 0⟩, ⟨2, "", none, "", none, 0, 0⟩]⟩)).state.selection :=
  disjoint_write_paths { initialState with selection := {42}, numToSelect := "2" }
    (.error "network")
    (.ok ⟨some [⟨1, "", none, "", none, 0, 0⟩, ⟨2, "", none, "", none, 0, 0⟩]⟩)

/-- C10: validation of the bulk-select input follows parseInt semantics: any
string whose base-10 leading-integer prefix is positive (such as "5abc" or
"5.9") is accepted and the fetch is issued with the truncated integer as
the limit; the input is rejected as non-numeric only when it has no
leading integer part. -/
theorem bulk_validation_uses_parseInt (st : AppState) (resp : Except String BulkResponse) :
    (∀ c : Int, parseInt st.numToSelect = some c → 0 < c →
        (handleSelectTopN st resp).requests = [bulkFetchUrl c]) ∧
    (parseInt st.numToSelect = none → (handleSelectTopN st resp).requests = []) := by
  constructor
  · intro c hc hpos
    have hle : ¬ c ≤ 0 := not_le.mpr hpos
    cases resp with
    | ok r => rcases hr : r.data with _ | arts <;> simp [handleSelectTopN, hc, hle, hr]
    | error e => simp [handleSelectTopN, hc, hle]
  · intro h
    simp [handleSelectTopN, h]

/-- Witness for C10: "5abc" and "5.9" both issue one request with limit 5,
while "abc" issues none. -/
theorem bulk_validation_uses_parseInt_witness :
    (handleSelectTopN { initialState with numToSelect := "5abc" }
        (.ok ⟨some []⟩)).requests =
      ["https://api.artic.edu/api/v1/artworks?page=1&limit=5&fields=id&sort[id]=asc"] ∧
    (handleSelectTopN { initialState with numToSelect := "5.9" }
        (.ok ⟨some []⟩)).requests =
      ["https://api.artic.edu/api/v1/artworks?page=1&limit=5&fields=id&sort[id]=asc"] ∧
    (handleSelectTopN { initialState with numToSelect := "abc" }
        (.ok ⟨some []⟩)).requests = [] := by
  have h1 := (bulk_validation_uses_parseInt
    { initialState with numToSelect := "5abc" } (.ok ⟨some []⟩)).1 5 (by decide) (by decide)
  have h2 := (bulk_validation_uses_parseInt
    { initialState with numToSelect := "5.9" } (.ok ⟨some []⟩)).1 5 (by decide) (by decide)
  have h3 := (bulk_validation_uses_parseInt
    { initialState with numToSelect := "abc" } (.ok ⟨some []⟩)).2 (by decide)
  refine ⟨h1.trans (by decide), h2.trans (by decide), h3⟩

end App
